import Mathlib

/-!
Verification of the orthomosaic-processing pipeline (recorte_ortomosaico.py,
iv_gen.py, ranking_gen.py, main.py, api.py).

Shallow embedding conventions:
* Raster samples and all index arithmetic use exact rationals (ℚ) in place of
  the source's float32; every claim checked here is an exact-arithmetic
  property of the formulas.
* Python exceptions become `Except Err`; the source raises `ValueError` with a
  message (the spec's `GeometryError` / `BandCountError` name these same
  `ValueError`s by their condition).
* External libraries (rasterio's `mask`, rasterstats' `zonal_stats`) are
  parameters of the embedded functions: the theorems quantify over their
  behaviour, so whatever these collaborators compute, the proved properties of
  the repository's own code hold.
* pandas `sort_values(by="valor_medio", ascending=False)` sorts by the mean
  descending with null (NaN) keys placed last (`na_position='last'`); it is
  embedded as a comparison sort on the key `chave` below.  The source leaves
  the order of equal keys unspecified (its default sort kind is unstable), and
  no theorem here depends on the order of ties.
-/

/-- Errors raised by the pipeline stages.  The source raises `ValueError`
carrying a message; the constructor keeps that message. -/
inductive Err where
  | valueError (msg : String)
deriving DecidableEq

/-- Zonal statistics of one grid cell, as produced by
`zonal_stats(..., stats=["min", "max", "mean", "median", "std", "count"])` in
`ranking_gen.gerar_ranking`.  A cell with zero valid samples has `none` in
every statistic and `count = 0`. -/
structure CellStats where
  min : Option ℚ
  max : Option ℚ
  mean : Option ℚ
  median : Option ℚ
  std : Option ℚ
  count : Nat
deriving DecidableEq

/-- A grid cell after `gerar_ranking`: the original cell, its zonal
statistics, and the columns the function adds (`valor_medio`, `ranking`,
`percentil`, `categoria`). -/
structure RankedCell (α : Type) where
  cell : α
  stats : CellStats
  valor_medio : Option ℚ
  ranking : Nat
  percentil : ℚ
  categoria : String
deriving DecidableEq

/-- Sort key of `sort_values(by="valor_medio", ascending=False)`: the mean,
with an undefined (NaN) mean below every defined value, so that after the
descending sort the undefined-mean rows come last (`na_position='last'`). -/
def chave (s : CellStats) : WithBot ℚ :=
  match s.mean with
  | none => ⊥
  | some x => (x : WithBot ℚ)

/-- Insertion of one row into a list already sorted descending by `chave`. -/
def inserirOrdenado {α : Type} (x : α × CellStats) :
    List (α × CellStats) → List (α × CellStats)
  | [] => [x]
  | y :: ys => if chave y.2 ≤ chave x.2 then x :: y :: ys else y :: inserirOrdenado x ys

/-- Comparison sort embedding `gdf_stats.sort_values(by="valor_medio",
ascending=False)`: descending by mean, undefined means last. -/
def ordenar {α : Type} : List (α × CellStats) → List (α × CellStats)
  | [] => []
  | x :: xs => inserirOrdenado x (ordenar xs)

/-- Category thresholds of `ranking_gen.classificar_celula`, applied to the
percentile of each cell. -/
def classificar_celula (percentil : ℚ) : String :=
  if percentil ≥ 80 then "Excelente"
  else if percentil ≥ 60 then "Bom"
  else if percentil ≥ 40 then "Médio"
  else if percentil ≥ 20 then "Regular"
  else "Ruim"

/-- Assignment of the columns `ranking = range(1, len+1)` (positionally, `k`
is the next rank), `percentil = 100 * (1 - ranking / n)` with
`n = len(gdf_stats)`, and `categoria = classificar_celula(percentil)` to the
sorted rows. -/
def atribuirDesde {α : Type} (n : ℚ) (k : Nat) :
    List (α × CellStats) → List (RankedCell α)
  | [] => []
  | p :: rest =>
    { cell := p.1, stats := p.2, valor_medio := p.2.mean, ranking := k,
      percentil := 100 * (1 - (k : ℚ) / n),
      categoria := classificar_celula (100 * (1 - (k : ℚ) / n)) }
      :: atribuirDesde n (k + 1) rest

/-- Embedding of `ranking_gen.gerar_ranking`.  `f` stands for the external
`zonal_stats` call: it yields the `CellStats` of each grid cell.  The function
rejects an empty grid, attaches statistics to every cell, sorts descending by
mean (undefined means last), and assigns rank, percentile and category to
every row — the source assigns `range(1, len(gdf_stats) + 1)` to the whole
sorted frame, so no row is left unranked. -/
def gerar_ranking {α : Type} (f : α → CellStats) (grade : List α) :
    Except Err (List (RankedCell α)) :=
  if grade.isEmpty then
    Except.error (Err.valueError "A grade de entrada está vazia ou inválida")
  else
    Except.ok (atribuirDesde ((grade.length : ℚ)) 1
      (ordenar (grade.map (fun c => (c, f c)))))

/-- Epsilon guarding the denominators in `iv_gen` (`epsilon = 1e-10`). -/
def epsilon : ℚ := 1 / 10 ^ 10

/-- Embedding of `np.where(np.abs(denominador) < epsilon, epsilon,
denominador)` at one sample. -/
def guardaDenominador (d : ℚ) : ℚ :=
  if |d| < epsilon then epsilon else d

/-- Embedding of `np.clip(x, -1.0, 1.0)` at one sample. -/
def clipUnit (x : ℚ) : ℚ := min 1 (max (-1) x)

/-- Per-pixel VARI of `iv_gen.calcular_vari`:
`(green - red) / (green + red - blue)` with the guarded denominator, clipped
to `[-1, 1]`. -/
def variPixel (red green blue : ℚ) : ℚ :=
  clipUnit ((green - red) / guardaDenominador (green + red - blue))

/-- Per-pixel NDVI of `iv_gen.calcular_ndvi`: `(nir - red) / (nir + red)`
with the guarded denominator, clipped to `[-1, 1]`. -/
def ndviPixel (nir red : ℚ) : ℚ :=
  clipUnit ((nir - red) / guardaDenominador (nir + red))

/-- Per-pixel GNDVI of `iv_gen.calcular_gndvi`: `(nir - green) / (nir +
green)` with the guarded denominator, clipped to `[-1, 1]`. -/
def gndviPixel (nir green : ℚ) : ℚ :=
  clipUnit ((nir - green) / guardaDenominador (nir + green))

/-- Raster dataset: an ordered sequence of bands (each a flat list of
samples) and the nodata sentinel of its metadata. -/
structure Raster where
  bands : List (List ℚ)
  nodata : Option ℚ
deriving DecidableEq

/-- Band count (`src.count`). -/
def Raster.count (r : Raster) : Nat := r.bands.length

/-- One-based band read (`src.read i`). -/
def Raster.read (r : Raster) (i : Nat) : List ℚ := r.bands.getD (i - 1) []

/-- Pixel-wise combination of three equally shaped bands. -/
def zipWith3 (f : ℚ → ℚ → ℚ → ℚ) : List ℚ → List ℚ → List ℚ → List ℚ
  | a :: as, b :: bs, c :: cs => f a b c :: zipWith3 f as bs cs
  | _, _, _ => []

/-- Embedding of `iv_gen.calcular_vari`: requires at least 3 bands, reads
bands 1, 2, 3 as red, green, blue, and computes the clipped VARI at every
pixel.  The input raster's own nodata value is never consulted. -/
def calcular_vari (r : Raster) : Except Err (List ℚ) :=
  if r.count < 3 then
    Except.error (Err.valueError "O ortomosaico deve ter pelo menos 3 bandas (RGB)")
  else
    Except.ok (zipWith3 variPixel (r.read 1) (r.read 2) (r.read 3))

/-- Embedding of `iv_gen.calcular_ndvi` (defaults `banda_nir=4`,
`banda_red=1`). -/
def calcular_ndvi (r : Raster) (banda_nir : Nat := 4) (banda_red : Nat := 1) :
    Except Err (List ℚ) :=
  if r.count < Nat.max banda_nir banda_red then
    Except.error (Err.valueError
      ("O ortomosaico deve ter pelo menos " ++ toString (Nat.max banda_nir banda_red) ++ " bandas"))
  else
    Except.ok (List.zipWith ndviPixel (r.read banda_nir) (r.read banda_red))

/-- Embedding of `iv_gen.calcular_gndvi` (defaults `banda_nir=4`,
`banda_green=2`). -/
def calcular_gndvi (r : Raster) (banda_nir : Nat := 4) (banda_green : Nat := 2) :
    Except Err (List ℚ) :=
  if r.count < Nat.max banda_nir banda_green then
    Except.error (Err.valueError
      ("O ortomosaico deve ter pelo menos " ++ toString (Nat.max banda_nir banda_green) ++ " bandas"))
  else
    Except.ok (List.zipWith gndviPixel (r.read banda_nir) (r.read banda_green))

/-- Embedding of `recorte_ortomosaico.recortar`: the polygon collection read
from the boundary file is checked for emptiness before anything else; only
then is `rasterio.mask.mask` (the parameter `mascara`, an external library
call) applied. -/
def recortar {γ : Type} (mascara : Raster → List γ → Raster)
    (poligonos : List γ) (r : Raster) : Except Err Raster :=
  if poligonos.isEmpty then
    Except.error (Err.valueError "O arquivo do polígono está vazio ou inválido")
  else
    Except.ok (mascara r poligonos)

/-- Outcome of one pipeline stage: the stage either returns or raises an
exception with a message. -/
inductive Etapa where
  | sucesso
  | falha (mensagem : String)
deriving DecidableEq

/-- One webhook notification (`api.enviar_webhook`): a status string and an
optional message. -/
structure Webhook where
  status : String
  mensagem : Option String
deriving DecidableEq

/-- Outcomes of the stages of `main.processar_ortomosaico`, in the order the
try-block runs them. -/
structure PipelineSteps where
  conectar : Etapa
  baixar_ortomosaico : Etapa
  baixar_poligono : Etapa
  baixar_grade : Etapa
  recortar : Etapa
  calcular_vari : Etapa
  gerar_ranking : Etapa
  gerar_relatorio : Etapa
  enviar_recortado : Etapa
  enviar_vari : Etapa
  enviar_grade_saida : Etapa
  enviar_relatorio : Etapa

/-- Stage list of the try-block of `main.processar_ortomosaico`, in source
order. -/
def etapas (p : PipelineSteps) : List Etapa :=
  [p.conectar, p.baixar_ortomosaico, p.baixar_poligono, p.baixar_grade,
   p.recortar, p.calcular_vari, p.gerar_ranking, p.gerar_relatorio,
   p.enviar_recortado, p.enviar_vari, p.enviar_grade_saida, p.enviar_relatorio]

/-- Sequential execution of the try-block: the first raising stage aborts the
rest and its exception propagates. -/
def executarEtapas : List Etapa → Etapa
  | [] => Etapa.sucesso
  | Etapa.sucesso :: rest => executarEtapas rest
  | Etapa.falha m :: _ => Etapa.falha m

/-- Embedding of `main.processar_ortomosaico`: runs the stages inside a
try-block; on success it sends the webhook `"concluido"` and returns `True`,
on any exception the except-block sends the webhook `"erro"` with the
exception's message (`str(e)`) and returns `False`.  The second component is
the list of webhook notifications sent, in order. -/
def processar_ortomosaico (p : PipelineSteps) : Bool × List Webhook :=
  match executarEtapas (etapas p) with
  | Etapa.sucesso => (true, [{ status := "concluido", mensagem := none }])
  | Etapa.falha m => (false, [{ status := "erro", mensagem := some m }])

/-- Embedding of `api.executar_processamento_background`: sends the webhook
`"iniciado"` and then runs `processar_ortomosaico`, which sends the final
webhook itself.  The result is the full notification trace of the job. -/
def executar_processamento_background (p : PipelineSteps) : List Webhook :=
  { status := "iniciado", mensagem := none } :: (processar_ortomosaico p).2

/-- Raster whose bands are each constant, used by the synthetic-raster
scenarios (band `i` is constant at `valores[i-1]` over `n` pixels). -/
def rasterConstante (n : Nat) (valores : List ℚ) : Raster :=
  { bands := valores.map (fun v => List.replicate n v), nodata := none }

/-- Cell statistics of a cell whose samples give a defined mean `m` (the
other fields are irrelevant to ranking). -/
def statsCom (m : ℚ) : CellStats :=
  { min := some m, max := some m, mean := some m, median := some m,
    std := some 0, count := 1 }

/-- Cell statistics of a zero-valid-sample cell: every statistic is null. -/
def statsVazia : CellStats :=
  { min := none, max := none, mean := none, median := none, std := none,
    count := 0 }

/-- Statistics oracle of the two-cell example grid: cell 2 has mean 1/2, cell
1 lies fully outside the valid-data extent and has null statistics. -/
def estatisticaC1 (i : Nat) : CellStats :=
  if i = 2 then statsCom (1/2) else statsVazia

/-- Statistics oracle of the three-cell example grid with means 4/5, 1/2,
1/5. -/
def mediaExemplo (i : Nat) : CellStats :=
  if i = 1 then statsCom (4/5) else if i = 2 then statsCom (1/2) else statsCom (1/5)

/-- Ranked output of `gerar_ranking mediaExemplo [1, 2, 3]`. -/
def saidaExemplo : List (RankedCell Nat) :=
  [{ cell := 1, stats := statsCom (4/5), valor_medio := some (4/5), ranking := 1,
     percentil := 200/3, categoria := "Bom" },
   { cell := 2, stats := statsCom (1/2), valor_medio := some (1/2), ranking := 2,
     percentil := 100/3, categoria := "Regular" },
   { cell := 3, stats := statsCom (1/5), valor_medio := some (1/5), ranking := 3,
     percentil := 0, categoria := "Ruim" }]

theorem perm_inserirOrdenado {α : Type} (x : α × CellStats)
    (l : List (α × CellStats)) : (inserirOrdenado x l).Perm (x :: l) := by
  induction l with
  | nil => simp [inserirOrdenado]
  | cons y ys ih =>
    rw [inserirOrdenado]
    split
    · exact List.Perm.refl _
    · exact (ih.cons y).trans (List.Perm.swap x y ys)

theorem perm_ordenar {α : Type} (l : List (α × CellStats)) :
    (ordenar l).Perm l := by
  induction l with
  | nil => simp [ordenar]
  | cons x xs ih => exact (perm_inserirOrdenado x (ordenar xs)).trans (ih.cons x)

theorem atribuirDesde_map_ranking {α : Type} (n : ℚ) (k : Nat)
    (s : List (α × CellStats)) :
    (atribuirDesde n k s).map (fun c => c.ranking) = List.range' k s.length := by
  induction s generalizing k with
  | nil => simp [atribuirDesde]
  | cons p rest ih => simp [atribuirDesde, List.range', ih]

theorem atribuirDesde_map_par {α : Type} (n : ℚ) (k : Nat)
    (s : List (α × CellStats)) :
    (atribuirDesde n k s).map (fun c => (c.cell, c.stats)) = s := by
  induction s generalizing k with
  | nil => simp [atribuirDesde]
  | cons p rest ih => simp [atribuirDesde, ih]

theorem mem_atribuirDesde {α : Type} {c : RankedCell α} {n : ℚ} {k : Nat}
    {s : List (α × CellStats)} (h : c ∈ atribuirDesde n k s) :
    ∃ p ∈ s, c.cell = p.1 ∧ c.stats = p.2 ∧ c.valor_medio = p.2.mean ∧
      c.percentil = 100 * (1 - (c.ranking : ℚ) / n) ∧
      c.categoria = classificar_celula c.percentil := by
  induction s generalizing k with
  | nil => simp [atribuirDesde] at h
  | cons p rest ih =>
    rw [atribuirDesde] at h
    rcases List.mem_cons.mp h with hc | hc
    · subst hc
      exact ⟨p, List.mem_cons_self p rest, rfl, rfl, rfl, rfl, rfl⟩
    · obtain ⟨q, hq, hs⟩ := ih hc
      exact ⟨q, List.mem_cons_of_mem p hq, hs⟩

theorem gerar_ranking_ok {α : Type} {f : α → CellStats} {g : List α}
    {out : List (RankedCell α)} (h : gerar_ranking f g = Except.ok out) :
    g ≠ [] ∧
      out = atribuirDesde ((g.length : ℚ)) 1 (ordenar (g.map (fun c => (c, f c)))) := by
  by_cases hg : g.isEmpty
  · rw [gerar_ranking, if_pos hg] at h
    exact absurd h (by simp)
  · rw [gerar_ranking, if_neg hg] at h
    refine ⟨fun he => hg (by simp [he]), (Except.ok.inj h).symm⟩

/-- C1 (amended): for every nonempty grid, `gerar_ranking` succeeds and the
assigned ranks are exactly `1..M` where `M` is the TOTAL number of grid
cells — cells with a null mean included; every cell of the input appears in
the output carrying its original statistics (null statistics stay null), so
null-mean cells also receive a rank and a percentile. -/
theorem gerar_ranking_postos_totais {α : Type} (f : α → CellStats)
    (g : List α) (h : g ≠ []) :
    ∃ out, gerar_ranking f g = Except.ok out ∧
      out.map (fun c => c.ranking) = List.range' 1 g.length ∧
      (out.map (fun c => (c.cell, c.stats))).Perm (g.map (fun c => (c, f c))) ∧
      ∀ c ∈ out, c.stats = f c.cell ∧ c.valor_medio = (f c.cell).mean := by
  have hne : ¬ g.isEmpty := fun he => h (by simpa using he)
  refine ⟨_, by rw [gerar_ranking, if_neg hne], ?_, ?_, ?_⟩
  · rw [atribuirDesde_map_ranking, (perm_ordenar _).length_eq, List.length_map]
  · rw [atribuirDesde_map_par]
    exact perm_ordenar _
  · intro c hc
    obtain ⟨p, hp, h1, h2, h3, _, _⟩ := mem_atribuirDesde hc
    have hp' : p ∈ g.map (fun c => (c, f c)) := (perm_ordenar _).mem_iff.mp hp
    obtain ⟨a, _, ha⟩ := List.mem_map.mp hp'
    refine ⟨?_, ?_⟩
    · rw [h2, h1, ← ha]
    · rw [h3, h1, ← ha]

/-- C1 (witness): the amended theorem applied to the two-cell grid whose
first cell has null statistics. -/
theorem gerar_ranking_postos_totais_aplicado :
    ∃ out, gerar_ranking estatisticaC1 [1, 2] = Except.ok out ∧
      out.map (fun c => c.ranking) = List.range' 1 ([1, 2] : List Nat).length ∧
      (out.map (fun c => (c.cell, c.stats))).Perm
        (([1, 2] : List Nat).map (fun c => (c, estatisticaC1 c))) ∧
      ∀ c ∈ out, c.stats = estatisticaC1 c.cell ∧
        c.valor_medio = (estatisticaC1 c.cell).mean :=
  gerar_ranking_postos_totais estatisticaC1 [1, 2] (by decide)

/-- C1 (counterexample): on the grid `[1, 2]` where cell 1 has a null mean
and cell 2 a defined one, the code ranks BOTH cells: the rank list is
`[1, 2]` (not a permutation of `1..1`), and the null-mean cell receives rank
2, percentile 0 and the category `"Ruim"` — refuting that zero-sample cells
receive no rank and no percentile and are excluded from `N`. -/
theorem ranking_nao_exclui_celulas_sem_media :
    ∃ out, gerar_ranking estatisticaC1 [1, 2] = Except.ok out ∧
      out.map (fun c => c.ranking) = [1, 2] ∧
      ∃ c ∈ out, c.valor_medio = none ∧ c.ranking = 2 ∧ c.percentil = 0 ∧
        c.categoria = "Ruim" := by
  have hok : gerar_ranking estatisticaC1 [1, 2] = Except.ok
      [{ cell := 2, stats := statsCom (1/2), valor_medio := some (1/2),
         ranking := 1, percentil := 50, categoria := "Médio" },
       { cell := 1, stats := statsVazia, valor_medio := none, ranking := 2,
         percentil := 0, categoria := "Ruim" }] := by
    norm_num [gerar_ranking, ordenar, inserirOrdenado, chave, estatisticaC1,
      statsCom, statsVazia, atribuirDesde, classificar_celula,
      WithBot.not_coe_le_bot]
  refine ⟨_, hok, by norm_num, ?_⟩
  exact ⟨{ cell := 1, stats := statsVazia, valor_medio := none, ranking := 2,
           percentil := 0, categoria := "Ruim" }, by simp, rfl, rfl, rfl, rfl⟩

/-- C3: every ranked cell's percentile is exactly `100 * (1 - rank / N)` with
`N` the number of ranked cells (`len(gdf_stats)`), the cell with rank `N` has
percentile exactly 0, and the percentile strictly decreases as the rank
increases. -/
theorem gerar_ranking_percentil_formula {α : Type} (f : α → CellStats)
    (g : List α) (out : List (RankedCell α))
    (h : gerar_ranking f g = Except.ok out) :
    (∀ c ∈ out, c.percentil = 100 * (1 - (c.ranking : ℚ) / (g.length : ℚ)))
    ∧ (∀ c ∈ out, c.ranking = g.length → c.percentil = 0)
    ∧ (∀ c1 ∈ out, ∀ c2 ∈ out, c1.ranking < c2.ranking →
        c2.percentil < c1.percentil) := by
  obtain ⟨hne, hout⟩ := gerar_ranking_ok h
  have hlen : (0 : ℚ) < (g.length : ℚ) := by
    exact_mod_cast List.length_pos.mpr hne
  have hfor : ∀ c ∈ out,
      c.percentil = 100 * (1 - (c.ranking : ℚ) / (g.length : ℚ)) := by
    intro c hc
    rw [hout] at hc
    obtain ⟨p, _, _, _, _, h5, _⟩ := mem_atribuirDesde hc
    exact h5
  refine ⟨hfor, ?_, ?_⟩
  · intro c hc hr
    rw [hfor c hc, hr, div_self (ne_of_gt hlen)]
    norm_num
  · intro c1 h1 c2 h2 hlt
    rw [hfor c1 h1, hfor c2 h2]
    have hq : (c1.ranking : ℚ) < (c2.ranking : ℚ) := by exact_mod_cast hlt
    have hdiv : (c1.ranking : ℚ) / (g.length : ℚ) <
        (c2.ranking : ℚ) / (g.length : ℚ) :=
      (div_lt_div_iff_of_pos_right hlen).mpr hq
    linarith

/-- C3 (witness): the percentile theorem applied to the three-cell grid with
means 4/5, 1/2, 1/5, whose percentiles come out as 200/3, 100/3 and 0. -/
theorem gerar_ranking_percentil_formula_aplicado :
    (∀ c ∈ saidaExemplo,
        c.percentil = 100 * (1 - (c.ranking : ℚ) / (([1, 2, 3] : List Nat).length : ℚ)))
    ∧ (∀ c ∈ saidaExemplo, c.ranking = ([1, 2, 3] : List Nat).length →
        c.percentil = 0)
    ∧ (∀ c1 ∈ saidaExemplo, ∀ c2 ∈ saidaExemplo, c1.ranking < c2.ranking →
        c2.percentil < c1.percentil) :=
  gerar_ranking_percentil_formula mediaExemplo [1, 2, 3] saidaExemplo (by
    norm_num [gerar_ranking, ordenar, inserirOrdenado, chave, mediaExemplo,
      statsCom, atribuirDesde, classificar_celula, saidaExemplo,
      WithBot.coe_le_coe])

theorem clipUnit_entre (x : ℚ) : -1 ≤ clipUnit x ∧ clipUnit x ≤ 1 :=
  ⟨le_min (by norm_num) (le_max_left _ _), min_le_left _ _⟩

theorem clip_div_eval {num den v : ℚ} (hden : epsilon ≤ |den|)
    (hv : num / den = v) (h1 : -1 ≤ v) (h2 : v ≤ 1) :
    clipUnit (num / guardaDenominador den) = v := by
  rw [guardaDenominador, if_neg (not_lt.mpr hden), hv, clipUnit,
    max_eq_right h1, min_eq_right h2]

theorem zipWith3_replicate (f : ℚ → ℚ → ℚ → ℚ) (n : Nat) (a b c : ℚ) :
    zipWith3 f (List.replicate n a) (List.replicate n b) (List.replicate n c) =
      List.replicate n (f a b c) := by
  induction n with
  | zero => rfl
  | succ m ih => simp [List.replicate_succ, zipWith3, ih]

theorem zipWith_replicate_par (f : ℚ → ℚ → ℚ) (n : Nat) (a b : ℚ) :
    List.zipWith f (List.replicate n a) (List.replicate n b) =
      List.replicate n (f a b) := by
  induction n with
  | zero => rfl
  | succ m ih => simp [List.replicate_succ, ih]

theorem mem_zipWith3 {f : ℚ → ℚ → ℚ → ℚ} :
    ∀ {as bs cs : List ℚ} {v : ℚ}, v ∈ zipWith3 f as bs cs →
      ∃ a b c, v = f a b c
  | a :: as, b :: bs, c :: cs, v, h => by
    rcases List.mem_cons.mp h with hv | hv
    · exact ⟨a, b, c, hv⟩
    · exact mem_zipWith3 hv
  | [], _, _, _, h => by simp [zipWith3] at h
  | _ :: _, [], _, _, h => by simp [zipWith3] at h
  | _ :: _, _ :: _, [], _, h => by simp [zipWith3] at h

/-- C4: the category of a cell is a function of its percentile alone, with
inclusive lower bounds: `≥80` Excelente, `≥60` Bom, `≥40` Médio, `≥20`
Regular, otherwise Ruim; each boundary value falls in the upper band (80 is
Excelente, 60 is Bom, 40 is Médio, 20 is Regular). -/
theorem classificar_celula_limiares (p : ℚ) :
    (80 ≤ p → classificar_celula p = "Excelente")
    ∧ (60 ≤ p → p < 80 → classificar_celula p = "Bom")
    ∧ (40 ≤ p → p < 60 → classificar_celula p = "Médio")
    ∧ (20 ≤ p → p < 40 → classificar_celula p = "Regular")
    ∧ (p < 20 → classificar_celula p = "Ruim")
    ∧ classificar_celula 80 = "Excelente"
    ∧ classificar_celula 60 = "Bom"
    ∧ classificar_celula 40 = "Médio"
    ∧ classificar_celula 20 = "Regular" := by
  refine ⟨fun h => ?_, fun h1 h2 => ?_, fun h1 h2 => ?_, fun h1 h2 => ?_,
    fun h => ?_, by norm_num [classificar_celula],
    by norm_num [classificar_celula], by norm_num [classificar_celula],
    by norm_num [classificar_celula]⟩
  · rw [classificar_celula, if_pos (by linarith : p ≥ 80)]
  · rw [classificar_celula, if_neg (not_le.mpr (by linarith : p < 80)),
      if_pos (by linarith : p ≥ 60)]
  · rw [classificar_celula, if_neg (not_le.mpr (by linarith : p < 80)),
      if_neg (not_le.mpr (by linarith : p < 60)),
      if_pos (by linarith : p ≥ 40)]
  · rw [classificar_celula, if_neg (not_le.mpr (by linarith : p < 80)),
      if_neg (not_le.mpr (by linarith : p < 60)),
      if_neg (not_le.mpr (by linarith : p < 40)),
      if_pos (by linarith : p ≥ 20)]
  · rw [classificar_celula, if_neg (not_le.mpr (by linarith : p < 80)),
      if_neg (not_le.mpr (by linarith : p < 60)),
      if_neg (not_le.mpr (by linarith : p < 40)),
      if_neg (not_le.mpr (by linarith : p < 20))]

/-- C4 (witness): the threshold theorem applied at one percentile inside
each band. -/
theorem classificar_celula_limiares_aplicado :
    classificar_celula 85 = "Excelente" ∧ classificar_celula 61 = "Bom"
    ∧ classificar_celula 45 = "Médio" ∧ classificar_celula 25 = "Regular"
    ∧ classificar_celula 5 = "Ruim" :=
  ⟨(classificar_celula_limiares 85).1 (by norm_num),
   (classificar_celula_limiares 61).2.1 (by norm_num) (by norm_num),
   (classificar_celula_limiares 45).2.2.1 (by norm_num) (by norm_num),
   (classificar_celula_limiares 25).2.2.2.1 (by norm_num) (by norm_num),
   (classificar_celula_limiares 5).2.2.2.2.1 (by norm_num)⟩

/-- C5: on a raster whose bands are constant `R=50, G=150, B=50, NIR=200`
(read 1-based as bands 1..4), every VARI sample is `(150-50)/(150+50-50) =
2/3`, which is within `1e-4` of `0.6667`, and every NDVI sample (default
bands NIR=4, RED=1) is `(200-50)/(200+50) = 3/5 = 0.6`. -/
theorem indices_valores_constantes (n : Nat) :
    calcular_vari (rasterConstante n [50, 150, 50, 200]) =
      Except.ok (List.replicate n (2/3))
    ∧ |(2 : ℚ)/3 - 6667/10000| ≤ 1/10^4
    ∧ calcular_ndvi (rasterConstante n [50, 150, 50, 200]) 4 1 =
      Except.ok (List.replicate n (3/5))
    ∧ (3 : ℚ)/5 = 6/10 := by
  have hvari : variPixel 50 150 50 = 2/3 := by
    rw [variPixel]
    exact clip_div_eval (by norm_num [epsilon]) (by norm_num) (by norm_num)
      (by norm_num)
  have hndvi : ndviPixel 200 50 = 3/5 := by
    rw [ndviPixel]
    exact clip_div_eval (by norm_num [epsilon]) (by norm_num) (by norm_num)
      (by norm_num)
  refine ⟨?_, by rw [abs_le]; norm_num, ?_, by norm_num⟩
  · rw [calcular_vari, if_neg (by simp [rasterConstante, Raster.count])]
    have h1 : (rasterConstante n [50, 150, 50, 200]).read 1 =
        List.replicate n 50 := by simp [rasterConstante, Raster.read]
    have h2 : (rasterConstante n [50, 150, 50, 200]).read 2 =
        List.replicate n 150 := by simp [rasterConstante, Raster.read]
    have h3 : (rasterConstante n [50, 150, 50, 200]).read 3 =
        List.replicate n 50 := by simp [rasterConstante, Raster.read]
    rw [h1, h2, h3, zipWith3_replicate, hvari]
  · rw [calcular_ndvi, if_neg (by simp [rasterConstante, Raster.count])]
    have h4 : (rasterConstante n [50, 150, 50, 200]).read 4 =
        List.replicate n 200 := by simp [rasterConstante, Raster.read]
    have h1 : (rasterConstante n [50, 150, 50, 200]).read 1 =
        List.replicate n 50 := by simp [rasterConstante, Raster.read]
    rw [h4, h1, zipWith_replicate_par, hndvi]

/-- C6: in every index computation the guarded denominator is never zero (a
denominator of magnitude below `1e-10` is replaced by `1e-10`, any other is
kept), and every output sample of the three per-pixel formulas lies in the
closed interval `[-1, 1]` (values outside are saturated by `np.clip`, not
discarded). -/
theorem indices_denominador_e_clamp (d red green blue nir : ℚ) :
    guardaDenominador d ≠ 0
    ∧ epsilon ≤ |guardaDenominador d|
    ∧ (|d| < epsilon → guardaDenominador d = epsilon)
    ∧ (epsilon ≤ |d| → guardaDenominador d = d)
    ∧ (-1 ≤ variPixel red green blue ∧ variPixel red green blue ≤ 1)
    ∧ (-1 ≤ ndviPixel nir red ∧ ndviPixel nir red ≤ 1)
    ∧ (-1 ≤ gndviPixel nir green ∧ gndviPixel nir green ≤ 1) := by
  have heps : (0 : ℚ) < epsilon := by norm_num [epsilon]
  have habs : epsilon ≤ |guardaDenominador d| := by
    rw [guardaDenominador]
    split_ifs with hd
    · exact le_of_eq (abs_of_pos heps).symm
    · exact not_lt.mp hd
  have hne : guardaDenominador d ≠ 0 := by
    intro h0
    rw [h0, abs_zero] at habs
    exact absurd habs (not_le.mpr heps)
  refine ⟨hne, habs, fun h => by rw [guardaDenominador, if_pos h],
    fun h => by rw [guardaDenominador, if_neg (not_lt.mpr h)],
    by rw [variPixel]; exact clipUnit_entre _,
    by rw [ndviPixel]; exact clipUnit_entre _,
    by rw [gndviPixel]; exact clipUnit_entre _⟩

/-- C6 (witness): the guard and clamp theorem applied at a zero denominator
(replaced by epsilon), a kept denominator, and concrete pixels. -/
theorem indices_denominador_e_clamp_aplicado :
    guardaDenominador 0 = epsilon ∧ guardaDenominador 7 = 7
    ∧ (-1 ≤ variPixel 0 5 0 ∧ variPixel 0 5 0 ≤ 1) :=
  ⟨(indices_denominador_e_clamp 0 0 5 0 0).2.2.1 (by norm_num [epsilon]),
   (indices_denominador_e_clamp 7 0 5 0 0).2.2.2.1 (by norm_num [epsilon]),
   (indices_denominador_e_clamp 0 0 5 0 0).2.2.2.2.1⟩

/-- C7: when the raster has fewer bands than required — fewer than 3 for
VARI, fewer than `max` of the selected band indices for NDVI/GNDVI — the
computation fails with the band-count `ValueError` (the spec's
`BandCountError`) and produces no output. -/
theorem indices_bandas_insuficientes :
    (∀ r : Raster, r.count < 3 →
      calcular_vari r = Except.error
        (Err.valueError "O ortomosaico deve ter pelo menos 3 bandas (RGB)"))
    ∧ (∀ (r : Raster) (bn br : Nat), r.count < Nat.max bn br →
      calcular_ndvi r bn br = Except.error (Err.valueError
        ("O ortomosaico deve ter pelo menos " ++ toString (Nat.max bn br) ++ " bandas")))
    ∧ (∀ (r : Raster) (bn bg : Nat), r.count < Nat.max bn bg →
      calcular_gndvi r bn bg = Except.error (Err.valueError
        ("O ortomosaico deve ter pelo menos " ++ toString (Nat.max bn bg) ++ " bandas"))) :=
  ⟨fun r h => by rw [calcular_vari, if_pos h],
   fun r bn br h => by rw [calcular_ndvi, if_pos h],
   fun r bn bg h => by rw [calcular_gndvi, if_pos h]⟩

/-- C7 (witness): VARI and NDVI on a 2-band raster fail with the band-count
error. -/
theorem indices_bandas_insuficientes_aplicado :
    calcular_vari (rasterConstante 1 [50, 150]) = Except.error
      (Err.valueError "O ortomosaico deve ter pelo menos 3 bandas (RGB)")
    ∧ calcular_ndvi (rasterConstante 1 [50, 150]) 4 1 = Except.error
      (Err.valueError
        ("O ortomosaico deve ter pelo menos " ++ toString (Nat.max 4 1) ++ " bandas")) :=
  ⟨indices_bandas_insuficientes.1 _ (by decide),
   indices_bandas_insuficientes.2.1 _ 4 1 (by decide)⟩

/-- C8: clipping with an empty polygon collection fails with the
empty-geometry `ValueError` (the spec's `GeometryError`) whatever the
masking library would compute — so before any masking — and ranking an empty
grid fails likewise whatever the zonal-statistics collaborator would
compute, so before any statistics; in both cases the result is an error, so
no output is produced. -/
theorem entradas_vazias_geram_erro :
    (∀ (γ : Type) (mascara : Raster → List γ → Raster) (r : Raster),
      recortar mascara ([] : List γ) r = Except.error
        (Err.valueError "O arquivo do polígono está vazio ou inválido"))
    ∧ (∀ (α : Type) (f : α → CellStats),
      gerar_ranking f ([] : List α) = Except.error
        (Err.valueError "A grade de entrada está vazia ou inválida")) :=
  ⟨fun _ _ _ => rfl, fun _ _ => rfl⟩

theorem executarEtapas_todas_sucesso (l : List Etapa)
    (h : ∀ s ∈ l, s = Etapa.sucesso) : executarEtapas l = Etapa.sucesso := by
  induction l with
  | nil => rfl
  | cons a rest ih =>
    have ha := h a (List.mem_cons_self a rest)
    subst ha
    exact ih (fun s hs => h s (List.mem_cons_of_mem _ hs))

theorem executarEtapas_primeira_falha (pre : List Etapa) (m : String)
    (post : List Etapa) (h : ∀ s ∈ pre, s = Etapa.sucesso) :
    executarEtapas (pre ++ Etapa.falha m :: post) = Etapa.falha m := by
  induction pre with
  | nil => rfl
  | cons a rest ih =>
    have ha := h a (List.mem_cons_self a rest)
    subst ha
    exact ih (fun s hs => h s (List.mem_cons_of_mem _ hs))

/-- C9: whichever pipeline stage raises first (all stages before it having
returned), the orchestrator catches the exception, sends exactly one webhook
with status `"erro"` carrying that exception's message, and returns `False`;
when every stage returns it sends exactly one webhook `"concluido"` with no
message and returns `True`.  The background runner prepends the `"iniciado"`
notification, so the full job trace holds exactly one final-status
webhook. -/
theorem processar_notifica_webhook (p : PipelineSteps) :
    (∀ (pre : List Etapa) (m : String) (post : List Etapa),
      etapas p = pre ++ Etapa.falha m :: post →
      (∀ s ∈ pre, s = Etapa.sucesso) →
      processar_ortomosaico p =
        (false, [{ status := "erro", mensagem := some m }]) ∧
      executar_processamento_background p =
        [{ status := "iniciado", mensagem := none },
         { status := "erro", mensagem := some m }])
    ∧ ((∀ s ∈ etapas p, s = Etapa.sucesso) →
      processar_ortomosaico p =
        (true, [{ status := "concluido", mensagem := none }]) ∧
      executar_processamento_background p =
        [{ status := "iniciado", mensagem := none },
         { status := "concluido", mensagem := none }]) := by
  constructor
  · intro pre m post heq hpre
    have hrun : executarEtapas (etapas p) = Etapa.falha m := by
      rw [heq]
      exact executarEtapas_primeira_falha pre m post hpre
    constructor
    · rw [processar_ortomosaico, hrun]
    · rw [executar_processamento_background, processar_ortomosaico, hrun]
  · intro h
    have hrun : executarEtapas (etapas p) = Etapa.sucesso :=
      executarEtapas_todas_sucesso _ h
    constructor
    · rw [processar_ortomosaico, hrun]
    · rw [executar_processamento_background, processar_ortomosaico, hrun]

/-- Stage outcomes of an example job whose ranking stage raises (the grade
file was empty) while every stage before it returned. -/
def etapasExemplo : PipelineSteps :=
  { conectar := Etapa.sucesso, baixar_ortomosaico := Etapa.sucesso,
    baixar_poligono := Etapa.sucesso, baixar_grade := Etapa.sucesso,
    recortar := Etapa.sucesso, calcular_vari := Etapa.sucesso,
    gerar_ranking := Etapa.falha "A grade de entrada está vazia ou inválida",
    gerar_relatorio := Etapa.sucesso, enviar_recortado := Etapa.sucesso,
    enviar_vari := Etapa.sucesso, enviar_grade_saida := Etapa.sucesso,
    enviar_relatorio := Etapa.sucesso }

/-- C9 (witness): the notification theorem applied to the example job whose
ranking stage raises. -/
theorem processar_notifica_webhook_aplicado :
    processar_ortomosaico etapasExemplo =
      (false, [{ status := "erro",
                 mensagem := some "A grade de entrada está vazia ou inválida" }])
    ∧ executar_processamento_background etapasExemplo =
      [{ status := "iniciado", mensagem := none },
       { status := "erro",
         mensagem := some "A grade de entrada está vazia ou inválida" }] :=
  (processar_notifica_webhook etapasExemplo).1
    [Etapa.sucesso, Etapa.sucesso, Etapa.sucesso, Etapa.sucesso,
     Etapa.sucesso, Etapa.sucesso]
    "A grade de entrada está vazia ou inválida"
    [Etapa.sucesso, Etapa.sucesso, Etapa.sucesso, Etapa.sucesso, Etapa.sucesso]
    rfl (by decide)

/-- C10: although the index output's metadata declares `-9999` as nodata,
for every raster with at least 3 bands the VARI computation runs the clipped
formula at every pixel — the raster's own nodata field is never consulted
(changing it does not change the result) — and every computed sample lies in
`[-1, 1]`, hence never equals `-9999`. -/
theorem calcular_vari_sem_nodata (r : Raster) (h : 3 ≤ r.count) :
    calcular_vari r =
      Except.ok (zipWith3 variPixel (r.read 1) (r.read 2) (r.read 3))
    ∧ (∀ v ∈ zipWith3 variPixel (r.read 1) (r.read 2) (r.read 3),
        -1 ≤ v ∧ v ≤ 1 ∧ v ≠ -9999)
    ∧ (∀ nd : Option ℚ,
        calcular_vari { bands := r.bands, nodata := nd } = calcular_vari r) := by
  refine ⟨by rw [calcular_vari, if_neg (not_lt.mpr h)], ?_, fun nd => rfl⟩
  intro v hv
  obtain ⟨a, b, c, hval⟩ := mem_zipWith3 hv
  subst hval
  rw [variPixel]
  obtain ⟨h1, h2⟩ := clipUnit_entre ((b - a) / guardaDenominador (b + a - c))
  refine ⟨h1, h2, fun he => ?_⟩
  rw [he] at h1
  norm_num at h1

/-- Example raster for C10: three bands, one pixel value equal to the
declared nodata sentinel of the raster (`0`). -/
def rasterExemplo : Raster :=
  { bands := [[0, 100], [50, 200], [25, 0]], nodata := some 0 }

/-- C10 (witness): the theorem applied to a concrete 3-band raster whose
nodata is `0` and which contains `0`-valued pixels. -/
theorem calcular_vari_sem_nodata_aplicado :
    calcular_vari rasterExemplo =
      Except.ok (zipWith3 variPixel (rasterExemplo.read 1)
        (rasterExemplo.read 2) (rasterExemplo.read 3))
    ∧ (∀ v ∈ zipWith3 variPixel (rasterExemplo.read 1)
        (rasterExemplo.read 2) (rasterExemplo.read 3),
        -1 ≤ v ∧ v ≤ 1 ∧ v ≠ -9999)
    ∧ (∀ nd : Option ℚ,
        calcular_vari { bands := rasterExemplo.bands, nodata := nd } =
          calcular_vari rasterExemplo) :=
  calcular_vari_sem_nodata rasterExemplo (by decide)
